import Mathlib

/-!
Shallow embedding of the ticket NLP service (src/python/app.py).

Python strings are modelled as `List Char`; a nullable string is
`Option (List Char)`.  The remote model call and the JSON parser are
external collaborators and are passed to `classify` as oracles: `gen`
is the outcome of the generate-content call (`Except.error` stands for
any raised exception, `Except.ok raw` for the returned text, already
coalesced to the empty string when the response text was null), and
`parse` is the outcome of `json.loads` plus the two field lookups
(`Except.error` for any exception, `Except.ok (p, d)` for the possibly
absent field values).  Everything else is translated directly from the
source.
-/

/-- The straight apostrophe character (code point 39). -/
def apos : Char := Char.ofNat 39

/-- The right single quotation mark, i.e. the curly apostrophe (code point 8217). -/
def rquo : Char := Char.ofNat 8217

/-- The opening curly brace character (code point 123). -/
def lbrace : Char := Char.ofNat 123

/-- The closing curly brace character (code point 125). -/
def rbrace : Char := Char.ofNat 125

/-- Convert a Lean string literal to the `List Char` string model. -/
def toL (s : String) : List Char := s.toList

/-- Model of Python str.lower (the labels and keywords involved are ASCII). -/
def pyLower (s : List Char) : List Char := s.map Char.toLower

/-- Model of Python str.strip: remove whitespace from both ends. -/
def pyStrip (s : List Char) : List Char :=
  ((s.dropWhile Char.isWhitespace).reverse.dropWhile Char.isWhitespace).reverse

/-- Model of the Python substring test `k in t`. -/
def containsSub (t k : List Char) : Bool := decide (k <:+: t)

/-- Model of `any(k in t for k in ks)`. -/
def containsAny (t : List Char) (ks : List (List Char)) : Bool :=
  ks.any (fun k => containsSub t k)

/-- app.py line 34: the allowed priority labels. -/
def PRIORITIES : List (List Char) := [toL "low", toL "medium", toL "high"]

/-- app.py line 35: the allowed department labels. -/
def DEPARTMENTS : List (List Char) :=
  [toL "account", toL "hardware", toL "network", toL "software", toL "other"]

/-- app.py lines 38-44: dict lookup `BASE_MIN.get(department, BASE_MIN[other])`,
written as the equivalent chain of key comparisons with the default 60. -/
def BASE_MIN (d : List Char) : ℚ :=
  if d = toL "account" then 45
  else if d = toL "network" then 90
  else if d = toL "software" then 120
  else if d = toL "hardware" then 180
  else if d = toL "other" then 60
  else 60

/-- app.py line 45: dict lookup `PRIO_MULT.get(priority, 1.0)`.  The three
multipliers are exactly representable floats, so rationals model them exactly. -/
def PRIO_MULT (p : List Char) : ℚ :=
  if p = toL "low" then 3 / 4
  else if p = toL "medium" then 1
  else if p = toL "high" then 3 / 2
  else 1

/-- Python round() on a float: nearest integer, ties to even.  All products
`BASE_MIN d * PRIO_MULT p` are exactly representable, so the rational model
is exact. -/
def pyRound (q : ℚ) : ℤ :=
  if q - ⌊q⌋ = 1 / 2 then (if 2 ∣ ⌊q⌋ then ⌊q⌋ else ⌊q⌋ + 1) else round q

/-- app.py lines 48-51: `int(round(base * mult))`. -/
def estimate_minutes (d p : List Char) : ℤ :=
  pyRound (BASE_MIN d * PRIO_MULT p)

/-- Modelled from the spec: the base-minutes table of section 4.2 with the
fallback to the `other` entry for unknown departments. -/
def spec_base (d : List Char) : ℚ :=
  if d = toL "account" then 45
  else if d = toL "network" then 90
  else if d = toL "software" then 120
  else if d = toL "hardware" then 180
  else 60

/-- Modelled from the spec: the multiplier table of section 4.2 with the
default 1.0 for unknown priorities. -/
def spec_mult (p : List Char) : ℚ :=
  if p = toL "low" then 3 / 4
  else if p = toL "medium" then 1
  else if p = toL "high" then 3 / 2
  else 1

/-- C3: for every department string and priority string, `estimate_minutes`
returns the base minutes of the spec table (falling back to 60) times the
multiplier of the spec table (defaulting to 1), rounded to the nearest
integer with ties rounded half-up (Mathlib `round`). -/
theorem C3_estimate_minutes_round_half_up :
    ∀ d p : List Char, estimate_minutes d p = round (spec_base d * spec_mult p) := by
  intro d p
  unfold estimate_minutes BASE_MIN PRIO_MULT spec_base spec_mult
  split_ifs <;> norm_num [pyRound, round_eq]

/-- app.py lines 77-79: trim, lower-case, keep the candidate when it lies in
the allowed set, otherwise substitute the default.  A null candidate
(Python None, `Option.none` here) is coalesced to the empty string by
`value or ""`. -/
def _normalize (value : Option (List Char)) (allowed : List (List Char))
    (dflt : List Char) : List Char :=
  let v := pyLower (pyStrip (value.getD []))
  if v ∈ allowed then v else dflt

/-- app.py line 87: account keywords. -/
def ACCOUNT_KWS : List (List Char) :=
  [toL "login", toL "password", toL "2fa", toL "account", toL "signin", toL "reset"]

/-- app.py line 89: network keywords. -/
def NETWORK_KWS : List (List Char) :=
  [toL "wifi", toL "network", toL "vpn", toL "latency", toL "internet", toL "dns"]

/-- app.py line 91: hardware keywords. -/
def HARDWARE_KWS : List (List Char) :=
  [toL "laptop", toL "keyboard", toL "monitor", toL "printer", toL "disk",
   toL "hardware", toL "battery"]

/-- app.py line 93: software keywords. -/
def SOFTWARE_KWS : List (List Char) :=
  [toL "install", toL "crash", toL "error", toL "bug", toL "update",
   toL "windows", toL "macos", toL "linux", toL "app"]

/-- The phrase cant-work with the straight apostrophe. -/
def cant_work : List Char := toL "can" ++ [apos] ++ toL "t work"

/-- The phrase wont-boot with the straight apostrophe. -/
def wont_boot : List Char := toL "won" ++ [apos] ++ toL "t boot"

/-- The phrase wont-boot with the curly apostrophe, as it appears in the
source keyword list. -/
def wont_boot_curly : List Char := toL "won" ++ [rquo] ++ toL "t boot"

/-- app.py line 99: high-priority keywords.  The source list carries the
curly-apostrophe variant only for the wont-boot phrase. -/
def HIGH_KWS : List (List Char) :=
  [cant_work, toL "cannot work", toL "down", toL "outage", toL "urgent",
   toL "security", toL "data loss", wont_boot, wont_boot_curly]

/-- app.py line 101: medium-priority keywords. -/
def MEDIUM_KWS : List (List Char) :=
  [toL "slow", toL "sometimes", toL "intermittent", toL "degraded"]

/-- The classification triple returned by every path of the service. -/
structure Classification where
  priority : List Char
  department : List Char
  estimated_minutes : ℤ
deriving DecidableEq

/-- app.py lines 82-110: the deterministic keyword fallback classifier. -/
def _fallback_classify (text : List Char) : Classification :=
  let t := pyLower text
  let dept :=
    if containsAny t ACCOUNT_KWS then toL "account"
    else if containsAny t NETWORK_KWS then toL "network"
    else if containsAny t HARDWARE_KWS then toL "hardware"
    else if containsAny t SOFTWARE_KWS then toL "software"
    else toL "other"
  let prio :=
    if containsAny t HIGH_KWS then toL "high"
    else if containsAny t MEDIUM_KWS then toL "medium"
    else toL "low"
  ⟨prio, dept, estimate_minutes dept prio⟩

/-- app.py lines 157-159: the extraction step of the classify handler.  The
regex searches for a match of open-brace, anything, close-brace; with a
greedy middle the match, when it exists, runs from the first opening brace
to the last closing brace of the raw text, and it exists exactly when the
first opening brace precedes the last closing brace.  Without a match the
whole raw text is the payload. -/
def extractPayload (raw : List Char) : List Char :=
  let n := raw.length
  let i := raw.findIdx (· == lbrace)
  let jr := raw.reverse.findIdx (· == rbrace)
  if i < n - 1 - jr then (raw.take (n - jr)).drop i else raw

/-- app.py lines 131-133: the ticket text, built from the individually
stripped title and message joined by one space and stripped again. -/
def ticket_text (title message : List Char) : List Char :=
  pyStrip (pyStrip title ++ [' '] ++ pyStrip message)

/-- app.py lines 127-174: the classify handler past the auth and JSON-envelope
steps.  `modelAvailable` is the truthiness of the module-level model handle;
`gen` and `parse` are the external-call oracles described in the header. -/
def classify (modelAvailable : Bool)
    (gen : Except Unit (List Char))
    (parse : List Char → Except Unit (Option (List Char) × Option (List Char)))
    (title message : List Char) : Classification :=
  let text := ticket_text title message
  if text = [] then
    ⟨toL "medium", toL "other", estimate_minutes (toL "other") (toL "medium")⟩
  else if modelAvailable = false then
    _fallback_classify text
  else
    match gen with
    | .error _ => _fallback_classify text
    | .ok raw =>
      match parse (extractPayload raw) with
      | .error _ => _fallback_classify text
      | .ok (praw, draw) =>
        let priority := _normalize praw PRIORITIES (toL "medium")
        let department := _normalize draw DEPARTMENTS (toL "other")
        ⟨priority, department, estimate_minutes department priority⟩

/-- Modelled from the spec (section 4.3): the ordered department rules. -/
def DEPT_RULES : List (List Char × List (List Char)) :=
  [(toL "account", ACCOUNT_KWS), (toL "network", NETWORK_KWS),
   (toL "hardware", HARDWARE_KWS), (toL "software", SOFTWARE_KWS)]

/-- Modelled from the spec (section 4.3): the department is the label of the
first rule, in the fixed order of `DEPT_RULES`, whose keyword set has a member
occurring as a substring of the lower-cased text; `other` when none matches. -/
def spec_department (text : List Char) : List Char :=
  match DEPT_RULES.find? (fun r => containsAny (pyLower text) r.2) with
  | some r => r.1
  | none => toL "other"

/-- The ordered priority rules as the source actually has them: the
curly-apostrophe variant is present only for the wont-boot phrase. -/
def PRIO_RULES : List (List Char × List (List Char)) :=
  [(toL "high", HIGH_KWS), (toL "medium", MEDIUM_KWS)]

/-- Modelled from the spec (section 4.3): the priority is the label of the
first rule of `PRIO_RULES` whose keyword set has a member occurring as a
substring of the lower-cased text; `low` when none matches. -/
def spec_priority (text : List Char) : List Char :=
  match PRIO_RULES.find? (fun r => containsAny (pyLower text) r.2) with
  | some r => r.1
  | none => toL "low"

/-- C4: the fallback department is decided by case-insensitive substring
matching against the four rules in the fixed order account, network,
hardware, software, first match winning and `other` the default; and a text
holding both an account keyword and a network keyword is classified as
account. -/
theorem C4_fallback_department_rule_order :
    (∀ text, (_fallback_classify text).department = spec_department text) ∧
    (_fallback_classify (toL "my account wifi is broken")).department = toL "account" := by
  constructor
  · intro text
    simp only [_fallback_classify, spec_department, DEPT_RULES, List.find?]
    cases hA : containsAny (pyLower text) ACCOUNT_KWS <;>
      cases hN : containsAny (pyLower text) NETWORK_KWS <;>
        cases hH : containsAny (pyLower text) HARDWARE_KWS <;>
          cases hS : containsAny (pyLower text) SOFTWARE_KWS <;>
            simp [hA, hN, hH, hS]
  · decide

/-- C5 counterexample: a text containing the cant-work phrase with the curly
apostrophe is given priority low by the fallback classifier, not high as the
claim states, because the source keyword list has no curly-apostrophe variant
of that phrase. -/
theorem C5_counterexample_curly_cant_work :
    (_fallback_classify (toL "i can" ++ [rquo] ++ toL "t work today")).priority = toL "low" ∧
    toL "low" ≠ toL "high" := by
  constructor
  · decide
  · decide

/-- C5 amended: the fallback priority is independent of the department and is
high when the lower-cased text contains a member of the high keyword set —
where the curly-apostrophe variant is accepted only for the wont-boot phrase,
the cant-work phrase matching only with the straight apostrophe — otherwise
medium when it contains a member of the medium keyword set, otherwise low;
the curly wont-boot variant is indeed accepted. -/
theorem C5_fallback_priority_rule_order :
    (∀ text, (_fallback_classify text).priority = spec_priority text) ∧
    (_fallback_classify (toL "pc won" ++ [rquo] ++ toL "t boot")).priority = toL "high" ∧
    (_fallback_classify (toL "pc won" ++ [apos] ++ toL "t boot")).priority = toL "high" ∧
    (_fallback_classify (toL "i can" ++ [apos] ++ toL "t work today")).priority = toL "high" := by
  refine ⟨?_, by decide, by decide, by decide⟩
  intro text
  simp only [_fallback_classify, spec_priority, PRIO_RULES, List.find?]
  cases hH : containsAny (pyLower text) HIGH_KWS <;>
    cases hM : containsAny (pyLower text) MEDIUM_KWS <;>
      simp [hH, hM]

/-- C9: the fallback classifier is a pure function of its input text: two
invocations with equal texts return equal classification triples. -/
theorem C9_fallback_deterministic (t₁ t₂ : List Char) (h : t₁ = t₂) :
    _fallback_classify t₁ = _fallback_classify t₂ := by
  rw [h]

/-- Witness for C9 at the concrete text "down". -/
theorem C9_fallback_deterministic_witness :
    toL "down" = toL "down" ∧
      _fallback_classify (toL "down") = _fallback_classify (toL "down") :=
  ⟨rfl, C9_fallback_deterministic (toL "down") (toL "down") rfl⟩

/-- C6: `_normalize` is total over all candidates, null included: it trims and
lower-cases the candidate and returns that result exactly when it is a member
of the allowed set, and the default in every other case. -/
theorem C6_normalize_characterization :
    ∀ (value : Option (List Char)) (allowed : List (List Char)) (dflt : List Char),
      _normalize value allowed dflt =
        if pyLower (pyStrip (value.getD [])) ∈ allowed
        then pyLower (pyStrip (value.getD []))
        else dflt := by
  intro value allowed dflt
  rfl

/-- Normalization is idempotent whenever every allowed label is a fixed point
of trim-then-lower and the default itself is allowed. -/
theorem normalize_idem_of_fixed (allowed : List (List Char)) (dflt : List Char)
    (hfix : ∀ x ∈ allowed, pyLower (pyStrip x) = x) (hd : dflt ∈ allowed)
    (v : List Char) :
    _normalize (some (_normalize (some v) allowed dflt)) allowed dflt =
      _normalize (some v) allowed dflt := by
  simp only [_normalize, Option.getD_some]
  by_cases h : pyLower (pyStrip v) ∈ allowed
  · rw [if_pos h, hfix _ h, if_pos h]
  · rw [if_neg h, hfix _ hd, if_pos hd]

/-- C10: for the two vocabularies actually used — priorities with default
medium and departments with default other — normalization is idempotent,
because the default is itself a trimmed lower-case member of the allowed set. -/
theorem C10_normalize_idempotent :
    ∀ v : List Char,
      _normalize (some (_normalize (some v) PRIORITIES (toL "medium")))
          PRIORITIES (toL "medium") =
        _normalize (some v) PRIORITIES (toL "medium") ∧
      _normalize (some (_normalize (some v) DEPARTMENTS (toL "other")))
          DEPARTMENTS (toL "other") =
        _normalize (some v) DEPARTMENTS (toL "other") := by
  intro v
  exact ⟨normalize_idem_of_fixed _ _ (by decide) (by decide) v,
         normalize_idem_of_fixed _ _ (by decide) (by decide) v⟩

/-- The fallback labels always lie in the two closed vocabularies. -/
theorem fallback_labels_mem (t : List Char) :
    (_fallback_classify t).priority ∈ PRIORITIES ∧
      (_fallback_classify t).department ∈ DEPARTMENTS := by
  simp only [_fallback_classify]
  constructor <;> split_ifs <;> decide

/-- Normalization lands in the allowed set as soon as the default is in it. -/
theorem normalize_mem (value : Option (List Char)) (allowed : List (List Char))
    (dflt : List Char) (hd : dflt ∈ allowed) :
    _normalize value allowed dflt ∈ allowed := by
  simp only [_normalize]
  split_ifs with h
  · exact h
  · exact hd

/-- Evaluation of the default branch of BASE_MIN at the label other. -/
theorem BASE_MIN_other : BASE_MIN (toL "other") = 60 := by
  unfold BASE_MIN
  rw [if_neg (by decide), if_neg (by decide), if_neg (by decide),
    if_neg (by decide), if_pos rfl]

/-- Evaluation of PRIO_MULT at the label medium. -/
theorem PRIO_MULT_medium : PRIO_MULT (toL "medium") = 1 := by
  unfold PRIO_MULT
  rw [if_neg (by decide), if_pos rfl]

/-- The neutral estimate: sixty minutes for department other at priority
medium. -/
theorem estimate_other_medium : estimate_minutes (toL "other") (toL "medium") = 60 := by
  unfold estimate_minutes
  rw [BASE_MIN_other, PRIO_MULT_medium]
  norm_num [pyRound, round_eq]

/-- C1: for every input and every behaviour of the primary-classifier oracles,
`classify` returns a priority in the priority vocabulary and a department in
the department vocabulary; and when the primary classifier produces the
out-of-vocabulary labels critical and billing, they are normalized to medium
and other with the neutral sixty-minute estimate. -/
theorem C1_classify_closed_vocabulary :
    (∀ (avail : Bool) (gen : Except Unit (List Char))
        (parse : List Char → Except Unit (Option (List Char) × Option (List Char)))
        (title message : List Char),
      (classify avail gen parse title message).priority ∈ PRIORITIES ∧
        (classify avail gen parse title message).department ∈ DEPARTMENTS) ∧
    (classify true (.ok (toL "noise"))
        (fun _ => .ok (some (toL "critical"), some (toL "billing")))
        (toL "x") [] =
      ⟨toL "medium", toL "other", estimate_minutes (toL "other") (toL "medium")⟩ ∧
      estimate_minutes (toL "other") (toL "medium") = 60) := by
  refine ⟨?_, rfl, estimate_other_medium⟩
  intro avail gen parse title message
  simp only [classify]
  split_ifs with h1 h2
  · decide
  · exact fallback_labels_mem _
  · cases gen with
    | error e => exact fallback_labels_mem _
    | ok raw =>
      cases hp : parse (extractPayload raw) with
      | error e => simp only [hp]; exact fallback_labels_mem _
      | ok pd =>
        obtain ⟨praw, draw⟩ := pd
        simp only [hp]
        exact ⟨normalize_mem _ _ _ (by decide), normalize_mem _ _ _ (by decide)⟩

/-- C2: with the primary path available and a nonempty ticket text, any
exception on the primary-classifier path — the generate call raising, or the
parse of the extracted payload raising — is caught inside `classify`, which
then returns exactly the fallback classification of the ticket text. -/
theorem C2_failure_recovered_by_fallback
    (gen : Except Unit (List Char))
    (parse : List Char → Except Unit (Option (List Char) × Option (List Char)))
    (title message : List Char)
    (hne : ticket_text title message ≠ []) :
    (gen = .error () →
      classify true gen parse title message =
        _fallback_classify (ticket_text title message)) ∧
    (∀ raw, gen = .ok raw → parse (extractPayload raw) = .error () →
      classify true gen parse title message =
        _fallback_classify (ticket_text title message)) := by
  constructor
  · rintro rfl
    simp only [classify, if_neg hne]
    simp
  · rintro raw rfl hp
    simp only [classify, if_neg hne]
    simp [hp]

/-- Witness for C2: with the text "vpn" and a raising generate call, classify
returns the fallback classification. -/
theorem C2_failure_recovered_by_fallback_witness :
    ticket_text (toL "vpn") [] ≠ [] ∧
      classify true (.error ()) (fun _ => .error ()) (toL "vpn") [] =
        _fallback_classify (ticket_text (toL "vpn") []) :=
  ⟨by decide,
    (C2_failure_recovered_by_fallback (.error ()) (fun _ => .error ())
      (toL "vpn") [] (by decide)).1 rfl⟩

/-- C7: when the ticket text is empty, classify returns the neutral default —
priority medium, department other, sixty minutes — for every behaviour of the
oracles, hence without consulting the primary or the fallback classifier; the
fallback default priority on the same empty text is low, a distinct policy. -/
theorem C7_empty_text_neutral_default
    (avail : Bool) (gen : Except Unit (List Char))
    (parse : List Char → Except Unit (Option (List Char) × Option (List Char)))
    (title message : List Char)
    (h : ticket_text title message = []) :
    classify avail gen parse title message =
      ⟨toL "medium", toL "other", estimate_minutes (toL "other") (toL "medium")⟩ ∧
    estimate_minutes (toL "other") (toL "medium") = 60 ∧
    (_fallback_classify []).priority = toL "low" ∧
    toL "medium" ≠ toL "low" := by
  refine ⟨?_, estimate_other_medium, by decide, by decide⟩
  simp only [classify, if_pos h]

/-- Witness for C7 at empty title and message. -/
theorem C7_empty_text_neutral_default_witness :
    ticket_text [] [] = [] ∧
      classify false (.error ()) (fun _ => .error ()) [] [] =
        ⟨toL "medium", toL "other", estimate_minutes (toL "other") (toL "medium")⟩ :=
  ⟨by decide,
    (C7_empty_text_neutral_default false (.error ()) (fun _ => .error ())
      [] [] (by decide)).1⟩

/-- Modelled from the spec: consume characters tracking brace depth; when the
depth returns to zero at a closing brace, the consumed prefix is the first
top-level brace-delimited object. -/
def firstObjAux : List Char → Nat → List Char → Option (List Char)
  | [], _, _ => none
  | c :: rest, depth, acc =>
    if c = lbrace then firstObjAux rest (depth + 1) (acc ++ [c])
    else if c = rbrace then
      if depth = 1 then some (acc ++ [c])
      else firstObjAux rest (depth - 1) (acc ++ [c])
    else firstObjAux rest depth (acc ++ [c])

/-- Modelled from the spec (section 4.4): locate the first top-level
brace-delimited object within the raw output; if no such object exists,
treat the entire raw output as the candidate payload. -/
def spec_first_object (raw : List Char) : List Char :=
  match firstObjAux (raw.dropWhile (fun c => !(c == lbrace))) 0 [] with
  | some o => o
  | none => raw

/-- The raw model output used as the C8 counterexample: two brace-delimited
objects separated by prose. -/
def noisy_raw : List Char :=
  [lbrace] ++ toL "a" ++ [rbrace] ++ toL " x " ++ [lbrace] ++ toL "b" ++ [rbrace]

/-- C8 counterexample: on a raw output holding two brace-delimited objects,
the extraction step of the source keeps the whole greedy span from the first
opening brace to the last closing brace, while the first top-level object is
only the first of the two, so the claim as stated fails. -/
theorem C8_counterexample_greedy_regex :
    extractPayload noisy_raw ≠ spec_first_object noisy_raw ∧
    spec_first_object noisy_raw = [lbrace] ++ toL "a" ++ [rbrace] ∧
    extractPayload noisy_raw = noisy_raw := by
  refine ⟨by decide, by decide, by decide⟩

/-- A predicate false on every element of a list makes findIdx skip past it. -/
theorem findIdx_append_none {α : Type} (p : α → Bool) (l₁ l₂ : List α)
    (h : ∀ a ∈ l₁, p a = false) :
    (l₁ ++ l₂).findIdx p = l₁.length + l₂.findIdx p := by
  induction l₁ with
  | nil => simp
  | cons a l ih =>
    have ha : p a = false := h a (by simp)
    have ih' := ih (fun b hb => h b (by simp [hb]))
    simp [List.findIdx_cons, ha, ih']
    omega

/-- A predicate false on every element of a list makes findIdx return the
length. -/
theorem findIdx_eq_length_of_none {α : Type} (p : α → Bool) (l : List α)
    (h : ∀ a ∈ l, p a = false) : l.findIdx p = l.length := by
  have := findIdx_append_none p l [] h
  simpa using this

/-- C8 amended: the extraction step selects the greedy span of the raw output
from the first opening brace through the last closing brace whenever an
opening brace occurs before the last closing brace, and uses the entire raw
output as the candidate payload otherwise.  The otherwise cases are exactly
the raw outputs with no closing brace at all (for instance a truncated
object) and those whose last closing brace is preceded by no opening brace;
the second and third conjuncts cover these two families in full. -/
theorem C8_amended_greedy_span (pre mid post : List Char)
    (hpre : lbrace ∉ pre) (hpost : rbrace ∉ post) :
    (extractPayload (pre ++ [lbrace] ++ mid ++ [rbrace] ++ post) =
      [lbrace] ++ mid ++ [rbrace]) ∧
    (∀ raw, rbrace ∉ raw → extractPayload raw = raw) ∧
    (∀ pre₂ post₂, lbrace ∉ pre₂ → rbrace ∉ post₂ →
      extractPayload (pre₂ ++ [rbrace] ++ post₂) = pre₂ ++ [rbrace] ++ post₂) := by
  refine ⟨?_, ?_, ?_⟩
  · have hpre' : ∀ a ∈ pre, (a == lbrace) = false := by
      intro a ha
      exact beq_eq_false_iff_ne.mpr (fun h => hpre (h ▸ ha))
    have hpost' : ∀ a ∈ post.reverse, (a == rbrace) = false := by
      intro a ha
      exact beq_eq_false_iff_ne.mpr (fun h => hpost (h ▸ List.mem_reverse.mp ha))
    have hi : (pre ++ ([lbrace] ++ (mid ++ ([rbrace] ++ post)))).findIdx (· == lbrace) =
        pre.length := by
      rw [findIdx_append_none _ _ _ hpre']
      simp [List.findIdx_cons]
    have hj : (pre ++ ([lbrace] ++ (mid ++ ([rbrace] ++ post)))).reverse.findIdx
        (· == rbrace) = post.length := by
      simp only [List.reverse_append, List.reverse_cons, List.reverse_nil,
        List.nil_append, List.append_assoc]
      rw [findIdx_append_none _ _ _ hpost']
      simp [List.findIdx_cons]
    simp only [extractPayload, List.append_assoc]
    rw [hi, hj]
    have hn : (pre ++ ([lbrace] ++ (mid ++ ([rbrace] ++ post)))).length =
        pre.length + mid.length + post.length + 2 := by
      simp; omega
    rw [hn, if_pos (by omega)]
    have harr : pre ++ ([lbrace] ++ (mid ++ ([rbrace] ++ post))) =
        (pre ++ ([lbrace] ++ (mid ++ [rbrace]))) ++ post := by
      simp [List.append_assoc]
    have htk : pre.length + mid.length + post.length + 2 - post.length =
        (pre ++ ([lbrace] ++ (mid ++ [rbrace]))).length := by
      simp; omega
    rw [harr, htk, List.take_left]
    rw [List.drop_left]
  · intro raw hraw
    have hr : ∀ a ∈ raw.reverse, (a == rbrace) = false := by
      intro a ha
      exact beq_eq_false_iff_ne.mpr (fun h => hraw (h ▸ List.mem_reverse.mp ha))
    simp only [extractPayload]
    rw [findIdx_eq_length_of_none _ _ hr, List.length_reverse, if_neg (by omega)]
  · intro pre₂ post₂ hpre₂ hpost₂
    have hpre' : ∀ a ∈ pre₂, (a == lbrace) = false := by
      intro a ha
      exact beq_eq_false_iff_ne.mpr (fun h => hpre₂ (h ▸ ha))
    have hpost' : ∀ a ∈ post₂.reverse, (a == rbrace) = false := by
      intro a ha
      exact beq_eq_false_iff_ne.mpr (fun h => hpost₂ (h ▸ List.mem_reverse.mp ha))
    have hj : (pre₂ ++ ([rbrace] ++ post₂)).reverse.findIdx (· == rbrace) =
        post₂.length := by
      simp only [List.reverse_append, List.reverse_cons, List.reverse_nil,
        List.nil_append, List.append_assoc]
      rw [findIdx_append_none _ _ _ hpost']
      simp [List.findIdx_cons]
    have hn : (pre₂ ++ ([rbrace] ++ post₂)).length =
        pre₂.length + post₂.length + 1 := by
      simp; omega
    simp only [extractPayload, List.append_assoc]
    rw [findIdx_append_none _ _ _ hpre', hj, hn, if_neg (by omega)]

/-- Witness for C8 amended at a concrete decomposition and at a concrete
truncated raw output without a closing brace. -/
theorem C8_amended_greedy_span_witness :
    lbrace ∉ toL "x" ∧ rbrace ∉ toL " y" ∧ rbrace ∉ [lbrace] ++ toL "abc" ∧
      extractPayload (toL "x" ++ [lbrace] ++ toL "a" ++ [rbrace] ++ toL " y") =
        [lbrace] ++ toL "a" ++ [rbrace] ∧
      extractPayload ([lbrace] ++ toL "abc") = [lbrace] ++ toL "abc" :=
  ⟨by decide, by decide, by decide,
    (C8_amended_greedy_span (toL "x") (toL "a") (toL " y")
      (by decide) (by decide)).1,
    (C8_amended_greedy_span (toL "x") (toL "a") (toL " y")
      (by decide) (by decide)).2.1 ([lbrace] ++ toL "abc") (by decide)⟩
